import Mathlib

/-!
Verification of the DICOM segmentator application (src/dicom_app_final.py).

The application keeps a per-session state (dicom_data, image, segmented,
slice_index) and offers five menu branches: upload, visualize, segment,
3D reconstruction, and STL export.  We embed the pixel data as grids of
rationals (the Python code works on float32 arrays; we idealise the
arithmetic over ℚ), masks as grids of booleans, and each menu branch as a
pure state-transition function.  External library calls (pydicom parsing,
skimage marching_cubes, numpy-stl serialization) are modelled as oracles or
parameters; everything the repository itself computes is translated
directly from the source.
-/

namespace DicomSegmentator

/-- A 2D pixel grid (one slice), `image.pixel_array` row by row. -/
abbrev Grid := List (List ℚ)

/-- A 2D boolean segmentation mask. -/
abbrev Mask := List (List Bool)

/-- The loaded pixel data: `pixel_array` is either a 2D array (single slice)
or a 3D array (a stack of slices), distinguished in the source by
`img.ndim == 3`. -/
inductive Volume where
  | vol2 (g : Grid)
  | vol3 (slices : List Grid)

/-- Sum of all entries of a grid. -/
def gridSum (g : Grid) : ℚ := (g.map List.sum).sum

/-- Number of entries of a grid. -/
def gridCount (g : Grid) : ℕ := (g.map List.length).sum

/-- The mean `np.mean` of a 2D array: sum of entries over their number. -/
def gridMean (g : Grid) : ℚ := gridSum g / gridCount g

/-- Sum of all entries of a volume. -/
def volSum : Volume → ℚ
  | .vol2 g => gridSum g
  | .vol3 slices => (slices.map gridSum).sum

/-- Number of entries of a volume. -/
def volCount : Volume → ℕ
  | .vol2 g => gridCount g
  | .vol3 slices => (slices.map gridCount).sum

/-- The mean `np.mean(image)` over the WHOLE loaded array, as in line 106-110 of the
source: the mean is taken over every voxel of `st.session_state.image`,
not over the currently selected slice. -/
def volMean (v : Volume) : ℚ := volSum v / volCount v

/-- Number of slices along axis 0 (`img.shape[0]` for a 3D array; a 2D
array is a single slice). -/
def depth : Volume → ℕ
  | .vol2 _ => 1
  | .vol3 slices => slices.length

/-! ## Display adjuster (visualize branch, lines 80-82)

`adjusted = img.copy(); adjusted = adjusted * contrast + brightness;
adjusted = np.clip(adjusted, 0, 255)` applied elementwise. -/

/-- One pixel of the brightness/contrast transform:
`np.clip(v * contrast + brightness, 0, 255)`. -/
def adjustValue (c b v : ℚ) : ℚ := min (max (v * c + b) 0) 255

/-- The transform applied to a whole 2D grid. -/
def adjustGrid (c b : ℚ) (g : Grid) : Grid := g.map (List.map (adjustValue c b))

/-- The transform applied to the whole loaded array, exactly as the code
does (the code adjusts `img` first and slices afterwards). -/
def adjustVolume (c b : ℚ) : Volume → Volume
  | .vol2 g => .vol2 (adjustGrid c b g)
  | .vol3 slices => .vol3 (slices.map (adjustGrid c b))

/-- The selection `image[slice_index] if image.ndim == 3 else image` (line 112 and the
slicing on line 86). Out-of-range indices do not occur in reachable
states (see the slice-index invariant); `getD` returns `[]` there. -/
def selectSlice : Volume → ℕ → Grid
  | .vol2 g, _ => g
  | .vol3 slices, idx => slices.getD idx []

/-- The 2D grid the visualize branch displays: the code adjusts the whole
array and then selects the slice (lines 80-86). -/
def displayedSlice (img : Volume) (c b : ℚ) (idx : ℕ) : Grid :=
  selectSlice (adjustVolume c b img) idx

/-- Spec-side description of the displayed slice for a 3D volume: first
select the slice, then apply the transform to that 2D grid (spec §4.1
takes a 2D slice as the adjuster's input). -/
def specDisplayedSlice (slices : List Grid) (c b : ℚ) (idx : ℕ) : Grid :=
  adjustGrid c b (selectSlice (.vol3 slices) idx)

/-! ## Segmenter (segment branch, lines 102-114) -/

/-- The structure selectbox: `["Hueso", "Tejido blando", "Tumor"]`
(Bone, Soft Tissue, Tumor). -/
inductive Estructura where
  | hueso
  | tejidoBlando
  | tumor
deriving DecidableEq

/-- The threshold computed on lines 105-110: `np.mean(image)` (over the
whole loaded array) times the factor, times 0.6 for soft tissue and 1.2
for the tumor branch. -/
def computeThreshold (image : Volume) (e : Estructura) (f : ℚ) : ℚ :=
  match e with
  | .hueso => volMean image * f
  | .tejidoBlando => volMean image * (f * (6 / 10 : ℚ))
  | .tumor => volMean image * (f * (12 / 10 : ℚ))

/-- The mask `segmented = slice_img > threshold` (lines 112-113): boolean grid,
`True` exactly where the slice value strictly exceeds the threshold. -/
def segmentMask (image : Volume) (idx : ℕ) (e : Estructura) (f : ℚ) : Mask :=
  let threshold := computeThreshold image e f
  (selectSlice image idx).map (List.map (fun v => decide (v > threshold)))

/-- Structure multiplier as the spec states it:
1.0 (Bone), 0.6 (Soft Tissue), 1.2 (Tumor). -/
def structMult : Estructura → ℚ
  | .hueso => 1
  | .tejidoBlando => 6 / 10
  | .tumor => 12 / 10

/-- Spec-side threshold, from the spec's words (§4.2):
`mean(slice) × factor × structureMultiplier` — the mean of the SELECTED
SLICE, to be compared with `computeThreshold` which the source computes
from the whole volume. -/
def specThreshold (slice : Grid) (e : Estructura) (f : ℚ) : ℚ :=
  gridMean slice * f * structMult e

/-- Spec-side mask: `True` exactly where the slice value strictly exceeds
the spec-side threshold. -/
def specMask (slice : Grid) (e : Estructura) (f : ℚ) : Mask :=
  slice.map (List.map (fun v => decide (v > specThreshold slice e f)))

/-! ## STL exporter (export branch, lines 152-164)

`measure.marching_cubes` and `mesh.Mesh.save` are external library calls;
the extraction is a parameter (an oracle returning either vertex/face
lists or an error), and we embed what the repository itself does: the
5-layer stacking, the unguarded call, and the per-face vertex copy. -/

/-- A 3D vertex, one row of `verts`. -/
abbrev Vec3 := ℚ × ℚ × ℚ

/-- One output triangle: the three vertices of `malla.vectors[i]`. -/
abbrev Tri := Vec3 × Vec3 × Vec3

/-- The result of a successful `measure.marching_cubes(vol, level=0)` call:
vertex list and face list (each face holds three indices into `verts`). -/
structure MCResult where
  verts : List Vec3
  faces : List (ℕ × ℕ × ℕ)

/-- The stacking `vol = np.stack([st.session_state.segmented]*5, axis=0)` (line 154):
five identical copies of the 2D mask along a new depth axis. -/
def stackMask (m : Mask) : List Mask := List.replicate 5 m

/-- The mesh-building loop (lines 156-159): face `i`'s vertex `j` is
`verts[faces[i][j]]`.  `malla.vectors` starts as zeros, so the default for
an out-of-range index is the zero vertex (marching_cubes only produces
in-range indices). -/
def buildMeshVectors (verts : List Vec3) (faces : List (ℕ × ℕ × ℕ)) : List Tri :=
  faces.map (fun f =>
    (verts.getD f.1 (0, 0, 0), verts.getD f.2.1 (0, 0, 0), verts.getD f.2.2 (0, 0, 0)))

/-- The export branch (lines 154-159): stack the mask, run the external
extraction, and build the mesh.  There is no `try`/`except` and no test on
the number of faces anywhere in the branch, so an extraction failure
propagates unchanged. -/
def exportSTL (marchingCubes : List Mask → Except String MCResult) (m : Mask) :
    Except String (List Tri) :=
  match marchingCubes (stackMask m) with
  | .error e => .error e
  | .ok r => .ok (buildMeshVectors r.verts r.faces)

/-! ## Session state machine (lines 51-58 and the five menu branches) -/

/-- The session state `st.session_state` as initialised on lines 51-55: `dicom_data`,
`image`, `segmented` all `None` and `slice_index = 0`.  The parsed
dataset's contents are never read again, so `dicomData : Option Unit`. -/
structure SessionState where
  dicomData : Option Unit
  image : Option Volume
  segmented : Option Mask
  sliceIndex : ℕ

/-- The initial session state. -/
def initState : SessionState := ⟨none, none, none, 0⟩

/-- The upload branch (lines 61-70): on a successful upload the pixel data
replaces the image wholesale, the mask is cleared and the slice index
reset; with no file the branch does nothing. -/
def uploadStep (s : SessionState) (file : Option Volume) : SessionState :=
  match file with
  | none => s
  | some v =>
      { dicomData := some (), image := some v, segmented := none, sliceIndex := 0 }

/-- The visualize branch (lines 73-95).  The boolean records whether the
`st.warning` path was taken.  When the image is 3D with more than one
slice the slider (min 0, max `shape[0]-1`) sets the slice index; the
slider widget only yields values in range, modelled as clamping the
user's choice `k`.  Otherwise the state is untouched. -/
def visualizeStep (s : SessionState) (_b _c : ℚ) (k : ℕ) : SessionState × Bool :=
  match s.image with
  | none => (s, true)
  | some img =>
      match img with
      | .vol3 slices =>
          if 1 < slices.length then
            ({ s with sliceIndex := min k (slices.length - 1) }, false)
          else (s, false)
      | .vol2 _ => (s, false)

/-- The segment branch (lines 98-121): with an image present it stores the
freshly computed mask; otherwise it warns and does nothing. -/
def segmentStep (s : SessionState) (e : Estructura) (f : ℚ) : SessionState × Bool :=
  match s.image with
  | none => (s, true)
  | some img =>
      ({ s with segmented := some (segmentMask img s.sliceIndex e f) }, false)

/-- The export branch (lines 151-167): guarded on `segmented` only; it
never writes to the session state. -/
def exportStep (s : SessionState) : SessionState × Bool :=
  match s.segmented with
  | none => (s, true)
  | some _ => (s, false)

/-- Session states reachable from the initial state through the menu
branches.  An uploaded `pixel_array` always has at least one slice
(a parsed DICOM file has nonempty pixel data), recorded as a
well-formedness hypothesis on the upload step.  The reconstruction branch
(lines 124-148) never writes to the session state and is omitted: it
produces no new states. -/
inductive Reachable : SessionState → Prop
  | init : Reachable initState
  | upload (s : SessionState) (file : Option Volume) (h : Reachable s)
      (hw : ∀ v, file = some v → 0 < depth v) :
      Reachable (uploadStep s file)
  | visualize (s : SessionState) (b c : ℚ) (k : ℕ) (h : Reachable s) :
      Reachable (visualizeStep s b c k).1
  | segment (s : SessionState) (e : Estructura) (f : ℚ) (h : Reachable s) :
      Reachable (segmentStep s e f).1
  | doExport (s : SessionState) (h : Reachable s) :
      Reachable (exportStep s).1

/-- The session-state invariant: without an image the mask is unset and
the slice index 0; with an image the slice index is below the depth, and
is 0 unless the volume has more than one slice. -/
def StateInv (s : SessionState) : Prop :=
  (s.image = none → s.segmented = none ∧ s.sliceIndex = 0) ∧
  (∀ v, s.image = some v → s.sliceIndex < depth v ∧ (depth v ≤ 1 → s.sliceIndex = 0))

/-- Every reachable session state satisfies the invariant. -/
lemma reachable_inv {s : SessionState} (h : Reachable s) : StateInv s := by
  induction h with
  | init =>
      exact ⟨fun _ => ⟨rfl, rfl⟩, fun v hv => by simp [initState] at hv⟩
  | upload s file h hw ih =>
      cases file with
      | none => exact ih
      | some v =>
          refine ⟨fun hnone => by simp [uploadStep] at hnone, fun w hw2 => ?_⟩
          simp only [uploadStep] at hw2 ⊢
          obtain rfl : v = w := by simpa using hw2
          exact ⟨hw v rfl, fun _ => trivial⟩
  | visualize s b c k h ih =>
      rcases hs : s.image with _ | img
      · simpa [visualizeStep, hs] using ih
      · cases img with
        | vol2 g => simpa [visualizeStep, hs] using ih
        | vol3 slices =>
            by_cases hl : 1 < slices.length
            · refine ⟨fun hnone => ?_, fun w hw2 => ?_⟩
              · simp [visualizeStep, hs, hl] at hnone
              · simp only [visualizeStep, hs, hl, if_true] at hw2 ⊢
                obtain rfl : Volume.vol3 slices = w := by simpa using hw2
                constructor
                · simp only [depth]
                  omega
                · intro hd
                  simp only [depth] at hd
                  omega
            · simpa [visualizeStep, hs, hl] using ih
  | segment s e f h ih =>
      rcases hs : s.image with _ | img
      · simpa [segmentStep, hs] using ih
      · refine ⟨fun hnone => ?_, fun w hw2 => ?_⟩
        · simp [segmentStep, hs] at hnone
        · simp only [segmentStep, hs] at hw2 ⊢
          exact ih.2 w (hs ▸ hw2)
  | doExport s h ih =>
      rcases hs : s.segmented with _ | m
      · simpa [exportStep, hs] using ih
      · simpa [exportStep, hs] using ih

/-! ## Helper lemmas -/

/-- Evaluating `getD` after `map`, for an in-range index, with any pair of defaults. -/
lemma getD_map_lt {α β : Type} (f : α → β) (d : α) (e : β) (l : List α) (i : ℕ)
    (h : i < l.length) : (l.map f).getD i e = f (l.getD i d) := by
  induction l generalizing i with
  | nil => simp at h
  | cons a l ih =>
      cases i with
      | zero => rfl
      | succ n => exact ih n (by simpa using h)

/-- Evaluating `getD` after `map` for any index, when the function fixes the defaults. -/
lemma getD_map_default {α β : Type} (f : α → β) (d : α) (e : β) (hf : f d = e)
    (l : List α) (i : ℕ) : (l.map f).getD i e = f (l.getD i d) := by
  induction l generalizing i with
  | nil => simpa using hf.symm
  | cons a l ih =>
      cases i with
      | zero => rfl
      | succ n => exact ih n

/-! ## Example inputs -/

/-- A 3D volume of two 1×1 slices with values 0 and 10. -/
def exImg3 : Volume := .vol3 [[[0]], [[10]]]

/-- A 2D volume: a constant 2×2 grid of value 10 (the spec's example). -/
def exConst10 : Volume := .vol2 [[10, 10], [10, 10]]

/-- A 3D volume of two 1×1 slices with values −10 and 10: its whole-array
mean is 0 although the second slice's mean is 10. -/
def exImgNeg : Volume := .vol3 [[[-10]], [[10]]]

/-! ## Claim theorems -/

/-- C1 (counterexample): on a 3D volume whose selected slice has a mean
different from the whole volume's mean, the code's threshold (computed
from `np.mean(image)`, the whole array) differs from the claimed
`mean(slice) × factor × multiplier`, and the resulting mask differs from
the claimed one.  Volume: slices [[0]] and [[10]], selected slice 1,
structure Bone, factor 1: the code's threshold is 5 and the mask [[true]];
the claim predicts threshold 10 and mask [[false]]. -/
theorem C1_counterexample :
    computeThreshold exImg3 .hueso 1 ≠ specThreshold (selectSlice exImg3 1) .hueso 1 ∧
    segmentMask exImg3 1 .hueso 1 ≠ specMask (selectSlice exImg3 1) .hueso 1 := by
  constructor
  · norm_num [computeThreshold, specThreshold, exImg3, volMean, volSum, volCount,
      gridSum, gridCount, gridMean, selectSlice, structMult]
  · norm_num [segmentMask, specMask, computeThreshold, specThreshold, exImg3, volMean,
      volSum, volCount, gridSum, gridCount, gridMean, selectSlice, structMult]

/-- C1 (amended): for every loaded volume, structure label and factor
f ∈ [0, 2], the threshold equals `mean(entire volume) × f × multiplier`
(which coincides with the slice mean only for 2D volumes), and the mask
has the shape of the selected slice and is `true` exactly at the
positions whose value strictly exceeds that threshold. -/
theorem C1_amended (img : Volume) (idx : ℕ) (e : Estructura) (f : ℚ)
    (hf0 : 0 ≤ f) (hf2 : f ≤ 2) :
    computeThreshold img e f = volMean img * f * structMult e ∧
    (segmentMask img idx e f).length = (selectSlice img idx).length ∧
    (∀ i, ((segmentMask img idx e f).getD i []).length
        = ((selectSlice img idx).getD i []).length) ∧
    (∀ i j, i < (selectSlice img idx).length →
      j < ((selectSlice img idx).getD i []).length →
      ((((segmentMask img idx e f).getD i []).getD j false) = true ↔
        computeThreshold img e f < ((selectSlice img idx).getD i []).getD j 0)) := by
  refine ⟨?_, ?_, ?_, ?_⟩
  · cases e <;> simp [computeThreshold, structMult] <;> ring
  · simp [segmentMask]
  · intro i
    rw [segmentMask, getD_map_default (List.map _) [] [] rfl]
    simp
  · intro i j hi hj
    rw [segmentMask]
    rw [getD_map_lt (List.map _) [] [] _ _ hi,
      getD_map_lt _ (0 : ℚ) false _ _ hj]
    simp

/-- C1 (witness): the spec's own example, a constant 2D grid of value 10
with factor 1 and structure Bone: the amended theorem applies, the
threshold evaluates to 10, and the mask is all `false` (strict `>`). -/
theorem C1_amended_witness :
    ((0 : ℚ) ≤ 1 ∧ (1 : ℚ) ≤ 2) ∧
    computeThreshold exConst10 .hueso 1 = volMean exConst10 * 1 * structMult .hueso ∧
    computeThreshold exConst10 .hueso 1 = 10 ∧
    segmentMask exConst10 0 .hueso 1 = [[false, false], [false, false]] := by
  refine ⟨⟨by norm_num, by norm_num⟩,
    (C1_amended exConst10 0 .hueso 1 (by norm_num) (by norm_num)).1, ?_, ?_⟩
  · norm_num [computeThreshold, exConst10, volMean, volSum, volCount, gridSum, gridCount]
  · norm_num [segmentMask, computeThreshold, exConst10, volMean, volSum, volCount,
      gridSum, gridCount, selectSlice]

/-- C3: the display-adjusted grid has each entry equal to
`clamp(value × contrast + brightness, 0, 255)`, and every adjusted entry
lies in [0, 255], for brightness in [−100, 100] and contrast in
[0.5, 3.0]. -/
theorem C3_adjust_clamped (g : Grid) (b c : ℚ)
    (hb1 : -100 ≤ b) (hb2 : b ≤ 100) (hc1 : 1 / 2 ≤ c) (hc2 : c ≤ 3) :
    (∀ i j, i < g.length → j < (g.getD i []).length →
      ((adjustGrid c b g).getD i []).getD j 0
        = min (max ((g.getD i []).getD j 0 * c + b) 0) 255) ∧
    ∀ row ∈ adjustGrid c b g, ∀ x ∈ row, 0 ≤ x ∧ x ≤ 255 := by
  constructor
  · intro i j hi hj
    rw [adjustGrid, getD_map_lt (List.map _) [] [] _ _ hi,
      getD_map_lt _ (0 : ℚ) (0 : ℚ) _ _ hj]
    rfl
  · intro row hrow x hx
    simp only [adjustGrid, List.mem_map] at hrow
    obtain ⟨r0, _, rfl⟩ := hrow
    simp only [List.mem_map] at hx
    obtain ⟨v, _, rfl⟩ := hx
    unfold adjustValue
    exact ⟨le_min (le_max_right _ _) (by norm_num), min_le_right _ _⟩

/-- C3 (witness): a 1×2 grid [300, −50] with brightness 0, contrast 1:
the theorem applies, and the adjusted grid evaluates to [255, 0], inside
[0, 255]. -/
theorem C3_adjust_clamped_witness :
    ((-100 : ℚ) ≤ 0 ∧ (0 : ℚ) ≤ 100 ∧ (1 / 2 : ℚ) ≤ 1 ∧ (1 : ℚ) ≤ 3) ∧
    (∀ row ∈ adjustGrid 1 0 [[300, -50]], ∀ x ∈ row, 0 ≤ x ∧ x ≤ 255) ∧
    adjustGrid 1 0 [[300, -50]] = [[255, 0]] := by
  refine ⟨⟨by norm_num, by norm_num, by norm_num, by norm_num⟩,
    (C3_adjust_clamped [[300, -50]] 0 1 (by norm_num) (by norm_num) (by norm_num)
      (by norm_num)).2, ?_⟩
  norm_num [adjustGrid, adjustValue, max_def, min_def]

/-- C5 (counterexample): the claim's hypothesis is a positive SLICE mean,
but the code computes every threshold from `np.mean(image)` over the
whole loaded array.  On the volume with slices [[−10]] and [[10]], slice
1 selected and factor 1, the slice mean is 10 > 0 and the factor is
positive, yet the whole-array mean is 0, so all three thresholds are 0
and are not strictly ordered. -/
theorem C5_counterexample :
    0 < gridMean (selectSlice exImgNeg 1) ∧ (0 : ℚ) < 1 ∧
    ¬ (computeThreshold exImgNeg .tejidoBlando 1 < computeThreshold exImgNeg .hueso 1 ∧
       computeThreshold exImgNeg .hueso 1 < computeThreshold exImgNeg .tumor 1) := by
  refine ⟨by norm_num [gridMean, gridSum, gridCount, selectSlice, exImgNeg],
    by norm_num, ?_⟩
  norm_num [computeThreshold, volMean, volSum, volCount, gridSum, gridCount, exImgNeg]

/-- C5 (amended): with a positive mean of the LOADED DATA (the whole
stored array, which is the slice itself exactly when the volume is 2D)
and a positive factor, the three thresholds are strictly ordered: Tumor
above Bone above Soft Tissue. -/
theorem C5_threshold_ordering (img : Volume) (f : ℚ)
    (hm : 0 < volMean img) (hf : 0 < f) :
    computeThreshold img .tejidoBlando f < computeThreshold img .hueso f ∧
    computeThreshold img .hueso f < computeThreshold img .tumor f := by
  unfold computeThreshold
  constructor <;> nlinarith [mul_pos hm hf]

/-- C5 (witness): the constant-10 grid with factor 1 has mean 10 > 0, and
the thresholds 6 < 10 < 12 are strictly ordered as the theorem states. -/
theorem C5_threshold_ordering_witness :
    (0 < volMean exConst10 ∧ (0 : ℚ) < 1) ∧
    computeThreshold exConst10 .tejidoBlando 1 < computeThreshold exConst10 .hueso 1 ∧
    computeThreshold exConst10 .hueso 1 < computeThreshold exConst10 .tumor 1 := by
  have hm : 0 < volMean exConst10 := by
    norm_num [volMean, volSum, volCount, gridSum, gridCount, exConst10]
  exact ⟨⟨hm, by norm_num⟩, C5_threshold_ordering exConst10 1 hm (by norm_num)⟩

/-- C2: the export branch performs no handling of empty or failed
extraction output: there is no guard and no exception handler between the
`marching_cubes` call and the mesh serialization, so any failure of the
external extraction (in particular the `ValueError` skimage raises on a
uniform all-True volume, where level 0 lies below the data minimum 1)
propagates unchanged and the export does not complete. -/
theorem C2_export_propagates_failure
    (marchingCubes : List Mask → Except String MCResult) (m : Mask) (e : String)
    (h : marchingCubes (stackMask m) = .error e) :
    exportSTL marchingCubes m = .error e := by
  simp [exportSTL, h]

/-- C2 (witness): an all-True 2×2 mask with an extraction oracle that
fails (as skimage does on the all-ones stacked volume): the error reaches
the export's result unchanged. -/
theorem C2_export_propagates_failure_witness :
    exportSTL (fun _ => .error "ValueError") [[true, true], [true, true]]
      = .error "ValueError" :=
  C2_export_propagates_failure (fun _ => .error "ValueError")
    [[true, true], [true, true]] "ValueError" rfl

/-- C4: the export branch stacks exactly 5 identical copies of the 2D
mask as its extraction input, and on a successful extraction builds a
mesh with one triangle per face whose vertex `j` of face `i` is
`verts[faces[i][j]]`.  (The final `malla.save` / download-button step is
an external mesh-serialization call, out of scope per the spec's
non-goals.) -/
theorem C4_export_mesh (marchingCubes : List Mask → Except String MCResult)
    (m : Mask) (verts : List Vec3) (faces : List (ℕ × ℕ × ℕ))
    (h : marchingCubes (stackMask m) = .ok ⟨verts, faces⟩) :
    (stackMask m).length = 5 ∧
    (∀ layer ∈ stackMask m, layer = m) ∧
    exportSTL marchingCubes m = .ok (buildMeshVectors verts faces) ∧
    (buildMeshVectors verts faces).length = faces.length ∧
    ∀ i, i < faces.length →
      (buildMeshVectors verts faces).getD i ((0, 0, 0), (0, 0, 0), (0, 0, 0)) =
        (verts.getD (faces.getD i (0, 0, 0)).1 (0, 0, 0),
         verts.getD (faces.getD i (0, 0, 0)).2.1 (0, 0, 0),
         verts.getD (faces.getD i (0, 0, 0)).2.2 (0, 0, 0)) := by
  refine ⟨by simp [stackMask], fun layer hl => List.eq_of_mem_replicate hl,
    by simp [exportSTL, h], by simp [buildMeshVectors], fun i hi => ?_⟩
  rw [buildMeshVectors, getD_map_lt _ ((0, 0, 0) : ℕ × ℕ × ℕ) _ _ _ hi]

/-- C4 (witness): a single-face extraction result on a 1×2 mask: the
stacked volume has 5 layers and the exported mesh is the one triangle
made of the three extracted vertices, in face order. -/
theorem C4_export_mesh_witness :
    exportSTL (fun _ => .ok ⟨[(0, 0, 0), (1, 0, 0), (0, 1, 0)], [(0, 1, 2)]⟩)
        [[true, false]]
      = .ok [((0, 0, 0), (1, 0, 0), (0, 1, 0))] ∧
    (stackMask [[true, false]]).length = 5 := by
  have h := C4_export_mesh (fun _ => .ok ⟨[(0, 0, 0), (1, 0, 0), (0, 1, 0)], [(0, 1, 2)]⟩)
    [[true, false]] [(0, 0, 0), (1, 0, 0), (0, 1, 0)] [(0, 1, 2)] rfl
  refine ⟨?_, h.1⟩
  rw [h.2.2.1]
  simp [buildMeshVectors, List.getD]

/-- C6: in every reachable session state with no loaded volume, each of
the visualize, segment and export branches takes the `st.warning` path
and leaves the session state unchanged (the export guard is on the mask,
but in such a state the mask is also unset by the reachability
invariant). -/
theorem C6_missing_volume_warns (s : SessionState) (hr : Reachable s)
    (h : s.image = none) (b c : ℚ) (k : ℕ) (e : Estructura) (f : ℚ) :
    visualizeStep s b c k = (s, true) ∧
    segmentStep s e f = (s, true) ∧
    exportStep s = (s, true) := by
  have hseg : s.segmented = none := ((reachable_inv hr).1 h).1
  exact ⟨by simp [visualizeStep, h], by simp [segmentStep, h], by simp [exportStep, hseg]⟩

/-- C6 (witness): the initial state is reachable and has no volume; all
three branches warn and leave it untouched. -/
theorem C6_missing_volume_warns_witness :
    visualizeStep initState 0 1 0 = (initState, true) ∧
    segmentStep initState .hueso 1 = (initState, true) ∧
    exportStep initState = (initState, true) :=
  C6_missing_volume_warns initState Reachable.init rfl 0 1 0 .hueso 1

/-- C7: in every reachable session state the slice index is 0 while no
volume is loaded, and for a loaded volume it is strictly below the depth
and equal to 0 unless the volume has more than one slice; reachability
closure under all the menu branches is exactly preservation by upload,
visualize, segment (and export). -/
theorem C7_slice_index_in_range (s : SessionState) (hr : Reachable s) :
    (s.image = none → s.sliceIndex = 0) ∧
    ∀ v, s.image = some v →
      s.sliceIndex < depth v ∧ (depth v ≤ 1 → s.sliceIndex = 0) := by
  have h := reachable_inv hr
  exact ⟨fun hn => (h.1 hn).2, h.2⟩

/-- C7 (witness): after uploading the two-slice volume and visualizing
with slider choice 5 the slice index is 1, which the theorem bounds by
the depth 2. -/
theorem C7_slice_index_in_range_witness :
    ((visualizeStep (uploadStep initState (some exImg3)) 0 1 5).1.sliceIndex < depth exImg3 ∧
      (depth exImg3 ≤ 1 →
        (visualizeStep (uploadStep initState (some exImg3)) 0 1 5).1.sliceIndex = 0)) ∧
    (visualizeStep (uploadStep initState (some exImg3)) 0 1 5).1.sliceIndex = 1 := by
  have hr : Reachable (visualizeStep (uploadStep initState (some exImg3)) 0 1 5).1 :=
    Reachable.visualize _ 0 1 5
      (Reachable.upload initState (some exImg3) Reachable.init
        (by intro v hv; cases hv; decide))
  exact ⟨(C7_slice_index_in_range _ hr).2 exImg3 rfl, rfl⟩

/-- C8: the visualize branch adjusts a copy of the pixel data and never
writes the image (nor the parsed dataset or the mask) back to the session
state: after the adjust-and-render step the stored volume is identical. -/
theorem C8_visualize_no_side_effects (s : SessionState) (b c : ℚ) (k : ℕ) :
    (visualizeStep s b c k).1.image = s.image ∧
    (visualizeStep s b c k).1.dicomData = s.dicomData ∧
    (visualizeStep s b c k).1.segmented = s.segmented := by
  rcases hs : s.image with _ | img
  · simp [visualizeStep, hs]
  · cases img with
    | vol2 g => simp [visualizeStep, hs]
    | vol3 slices =>
        by_cases hl : 1 < slices.length <;> simp [visualizeStep, hs, hl]

/-- C9: in every reachable session state, a present segmentation mask
implies a present volume: the export guard on the mask alone suffices to
know an image is loaded. -/
theorem C9_mask_implies_volume (s : SessionState) (hr : Reachable s)
    (m : Mask) (h : s.segmented = some m) : ∃ v, s.image = some v := by
  rcases hs : s.image with _ | v
  · have hn := ((reachable_inv hr).1 hs).1
    rw [h] at hn
    exact absurd hn (Option.some_ne_none m)
  · exact ⟨v, rfl⟩

/-- C9 (witness): the state reached by uploading the constant-10 volume
and segmenting it has a mask, and the theorem recovers the volume. -/
theorem C9_mask_implies_volume_witness :
    ∃ v, (segmentStep (uploadStep initState (some exConst10)) .hueso 1).1.image = some v :=
  C9_mask_implies_volume (segmentStep (uploadStep initState (some exConst10)) .hueso 1).1
    (Reachable.segment _ .hueso 1
      (Reachable.upload initState (some exConst10) Reachable.init
        (by intro v hv; cases hv; decide)))
    (segmentMask exConst10 0 .hueso 1) rfl

/-- C10: for a 3D volume and an in-range slice index, adjusting the whole
volume and then selecting the slice (as the code does on lines 80-86)
yields the same 2D grid as selecting the slice first and then adjusting
it (as the spec's §4.1 describes). -/
theorem C10_adjust_commutes_with_slicing (slices : List Grid) (c b : ℚ) (k : ℕ)
    (hk : k < slices.length) :
    displayedSlice (.vol3 slices) c b k = specDisplayedSlice slices c b k := by
  show (slices.map (adjustGrid c b)).getD k [] = adjustGrid c b (slices.getD k [])
  exact getD_map_lt _ [] [] _ _ hk

/-- C10 (witness): the two-slice volume with contrast 2 and brightness 1
at slice 1: both orders give the grid [[21]]. -/
theorem C10_adjust_commutes_with_slicing_witness :
    1 < ([[[0]], [[10]]] : List Grid).length ∧
    displayedSlice (.vol3 [[[0]], [[10]]]) 2 1 1 = specDisplayedSlice [[[0]], [[10]]] 2 1 1 ∧
    displayedSlice (.vol3 [[[0]], [[10]]]) 2 1 1 = [[21]] := by
  refine ⟨by norm_num, C10_adjust_commutes_with_slicing [[[0]], [[10]]] 2 1 1 (by norm_num), ?_⟩
  norm_num [displayedSlice, adjustVolume, adjustGrid, adjustValue, selectSlice,
    max_def, min_def]

end DicomSegmentator
